import Mathlib

/-!
Verification of the kublish OAuth credential-lifecycle core: the token
store (`backend/src/services/tokenStore.ts`), the token refresher and
authenticated-call wrapper (route file `salesforceLive`, two variants),
and the authorization-session manager (route file `salesforceAuth`,
state-keyed variant).

Shallow embedding conventions:
- `Date.now()` is an explicit `now : Nat` argument (epoch milliseconds).
- Provider I/O is an oracle argument: `Option TokenResponse` for the
  token endpoint (`none` = axios rejection: timeout or non-2xx), and
  `HttpResult` for an outbound API request.
- JavaScript string-falsiness (`undefined`, `null`, `""`) is modelled by
  `Option String` together with `jsStrTruthy` / `jsOrStr`.
- Key-value maps (`{[k: string]: V}` objects, Redis) are functions
  `String → Option V`; `delete` / upsert is `setK`.
-/

/-- JavaScript `a || b` on an optional string: `b` when `a` is absent or
empty (falsy), otherwise the string in `a`. -/
def jsOrStr : Option String → String → String
  | some s, d => if s = "" then d else s
  | none, d => d

/-- JavaScript truthiness of an optional string value. -/
def jsStrTruthy : Option String → Bool
  | some s => s ≠ ""
  | none => false

/-- Update one key of a string-keyed map (JS object assignment, or
`delete` when the new value is `none`). -/
def setK {α : Type} (m : String → Option α) (k : String) (v : Option α) :
    String → Option α :=
  fun s => if s = k then v else m s

/-- A parsed successful response from the provider's token endpoint
(`POST /services/oauth2/token`), as destructured by the refresh paths:
`access_token`, optional `refresh_token`, optional `instance_url`,
optional `expires_in` (seconds, already parsed to a number). -/
structure TokenResponse where
  access_token : String
  refresh_token : Option String
  instance_url : Option String
  expires_in : Option Nat
deriving DecidableEq

/-- Outcome of one outbound HTTP request issued by the call wrapper:
a 2xx response with a body, an HTTP error status (axios rejection
carrying `error.response.status`), or a transport error with no
response. -/
inductive HttpResult where
  | ok (body : String)
  | httpErr (status : Nat)
  | netErr
deriving DecidableEq

/-- One outbound provider API request as issued by `makeRequest` /
the axios call: method, full URL (`instanceUrl + endpoint`), the bearer
access token, and the optional JSON body. -/
structure OutRequest where
  method : String
  url : String
  bearer : String
  body : Option String
deriving DecidableEq

namespace TokenStoreService

/-- `TokenData` of `backend/src/services/tokenStore.ts`: the stored
per-user credential record; `expiresAt` is an absolute epoch-ms
timestamp. -/
structure TokenData where
  accessToken : String
  refreshToken : String
  instanceUrl : String
  expiresAt : Nat
deriving DecidableEq

/-- One Redis entry written by `setTokenData`: the serialized record,
the `PX` time-to-live passed to `redis.set`, and the time of the
write. -/
structure RedisEntry where
  value : TokenData
  px : Int
  setAt : Nat

/-- The backing Redis connection: its connectedness
(`redis.status === 'ready'`) and the keyspace. -/
structure RedisState where
  connected : Bool
  entries : String → Option RedisEntry

/-- The Redis key `kublish:token:<userId>` used by the store. -/
def tokenKey (userId : String) : String :=
  "kublish:token:" ++ userId

/-- `setTokenData`: writes the record under `tokenKey userId` with TTL
`PX = token.expiresAt - now`. When Redis is not connected the write is
skipped (only a warning is logged) and the promise still resolves; when
Redis is connected but the TTL is not positive, `redis.set` rejects
(invalid expire time) and no write happens. The boolean is `true` when
the promise resolves. -/
def setTokenData (rs : RedisState) (userId : String) (token : TokenData)
    (now : Nat) : RedisState × Bool :=
  let ttl : Int := (token.expiresAt : Int) - (now : Int)
  if rs.connected then
    if ttl ≤ 0 then (rs, false)
    else
      let entries' := setK rs.entries (tokenKey userId) (some ⟨token, ttl, now⟩)
      ({ rs with entries := entries' }, true)
  else (rs, true)

/-- `getTokenData`: reads `tokenKey userId`; returns `none` when Redis
is not connected, the key is absent, or the entry's TTL has elapsed
(Redis expiry). -/
def getTokenData (rs : RedisState) (userId : String) (now : Nat) :
    Option TokenData :=
  if rs.connected then
    match rs.entries (tokenKey userId) with
    | some e => if (now : Int) < (e.setAt : Int) + e.px then some e.value else none
    | none => none
  else none

/-- `clearTokenData`: deletes `tokenKey userId` when Redis is connected;
otherwise does nothing. -/
def clearTokenData (rs : RedisState) (userId : String) : RedisState :=
  if rs.connected then
    { rs with entries := setK rs.entries (tokenKey userId) none }
  else rs

end TokenStoreService

namespace LiveV1

/-- `TokenData` of the first `salesforceLive` variant (in-memory store):
no absolute expiry, only the `timestamp` of the write. -/
structure TokenData where
  accessToken : String
  refreshToken : String
  instanceUrl : String
  timestamp : Nat
deriving DecidableEq

/-- `refreshAccessToken` of the first `salesforceLive` variant: reads
the in-memory store; returns `null` (no write) when the user has no
record or no refresh token, or when the provider call fails; otherwise
stores and returns the updated record, keeping the old refresh token
(and old instance URL) when the response omits a new one. -/
def refreshAccessToken (store : String → Option TokenData) (userId : String)
    (providerResp : Option TokenResponse) (now : Nat) :
    Option TokenData × (String → Option TokenData) :=
  match store userId with
  | none => (none, store)
  | some tokenData =>
    if tokenData.refreshToken = "" then (none, store)
    else
      match providerResp with
      | none => (none, store)
      | some r =>
        let updated : TokenData :=
          { accessToken := r.access_token
            refreshToken := jsOrStr r.refresh_token tokenData.refreshToken
            instanceUrl := jsOrStr r.instance_url tokenData.instanceUrl
            timestamp := now }
        (some updated, setK store userId (some updated))

/-- Result of `makeSalesforceApiCall` in the first variant: the 2xx
body, the `'No authentication data found'` error, the
`'Failed to refresh access token'` error, or a rethrown axios error
(HTTP status pass-through or transport failure). -/
inductive ApiResult where
  | ok (body : String)
  | noAuthData
  | refreshFailed
  | httpError (status : Nat)
  | netError
deriving DecidableEq

/-- Trace of one `makeSalesforceApiCall` execution: its result, the
outbound provider requests actually issued (in order), the number of
`refreshAccessToken` calls made, and the final token store. -/
structure CallTrace where
  result : ApiResult
  requests : List OutRequest
  refreshCalls : Nat
  store : String → Option TokenData

/-- Lift an outbound-request outcome to the wrapper's result: a 2xx
body is returned, an error is thrown (rethrown unchanged). -/
def liftHttp : HttpResult → ApiResult
  | .ok b => .ok b
  | .httpErr s => .httpError s
  | .netErr => .netError

/-- `makeSalesforceApiCall` of the first `salesforceLive` variant: the
reactive path. Issues the request with the stored credentials; on a 401
response performs one `refreshAccessToken` and, when it yields a record,
reissues the request once with the new credentials, rethrowing whatever
that retry produces; a non-401 error is rethrown without any refresh.
`resp1`/`resp2` are the provider's responses to the first and (when
issued) second outbound request. -/
def makeSalesforceApiCall (store : String → Option TokenData)
    (userId endpoint method : String) (body : Option String)
    (resp1 resp2 : HttpResult) (providerResp : Option TokenResponse)
    (now : Nat) : CallTrace :=
  match store userId with
  | none => ⟨.noAuthData, [], 0, store⟩
  | some tokenData =>
    let req1 : OutRequest :=
      ⟨method, tokenData.instanceUrl ++ endpoint, tokenData.accessToken, body⟩
    match resp1 with
    | .ok b => ⟨.ok b, [req1], 0, store⟩
    | .httpErr s =>
      if s = 401 then
        match refreshAccessToken store userId providerResp now with
        | (none, store') => ⟨.refreshFailed, [req1], 1, store'⟩
        | (some refreshed, store') =>
          let req2 : OutRequest :=
            ⟨method, refreshed.instanceUrl ++ endpoint, refreshed.accessToken, body⟩
          ⟨liftHttp resp2, [req1, req2], 1, store'⟩
      else ⟨.httpError s, [req1], 0, store⟩
    | .netErr => ⟨.netError, [req1], 0, store⟩

end LiveV1

namespace LiveV2

open TokenStoreService

/-- `refreshAccessToken` of the second `salesforceLive` variant (backed
by the Redis token store): reads the record via `getTokenData`; returns
`null` when there is no record or no refresh token, or when the
provider call fails; otherwise writes via `setTokenData` a record with
`expiresAt = now + (expires_in or 3600) * 1000` (no buffer subtracted),
keeping the old refresh token / instance URL when the response omits
them, and returns it. -/
def refreshAccessToken (rs : RedisState) (userId : String)
    (providerResp : Option TokenResponse) (now : Nat) :
    Option TokenData × RedisState :=
  match getTokenData rs userId now with
  | none => (none, rs)
  | some tokenData =>
    if tokenData.refreshToken = "" then (none, rs)
    else
      match providerResp with
      | none => (none, rs)
      | some r =>
        let expiresAt := now + (r.expires_in.getD 3600) * 1000
        let updatedToken : TokenData :=
          { accessToken := r.access_token
            refreshToken := jsOrStr r.refresh_token tokenData.refreshToken
            instanceUrl := jsOrStr r.instance_url tokenData.instanceUrl
            expiresAt := expiresAt }
        let res := setTokenData rs userId updatedToken now
        if res.2 then (some updatedToken, res.1) else (none, res.1)

/-- Result of `makeSalesforceApiCall` in the second variant: the 2xx
body, the `'User is not authenticated with Salesforce.'` error, the
`'Unable to refresh token.'` error, or the propagated axios error of
the single outbound request. -/
inductive ApiResult where
  | ok (body : String)
  | notAuthenticated
  | cannotRefresh
  | httpError (status : Nat)
  | netError
deriving DecidableEq

/-- Lift the single outbound request's outcome to the wrapper's
result (the axios promise is returned to the route handler as-is). -/
def liftHttp : HttpResult → ApiResult
  | .ok b => .ok b
  | .httpErr s => .httpError s
  | .netErr => .netError

/-- Trace of one `makeSalesforceApiCall` execution in the second
variant. -/
structure CallTrace where
  result : ApiResult
  requests : List OutRequest
  refreshCalls : Nat
  store : RedisState

/-- `makeSalesforceApiCall` of the second `salesforceLive` variant: the
proactive path. Fails before any outbound request when the user has no
record; when the record expires within 30 s of now, refreshes first and
uses (only) the refreshed record for the single outbound request; no
reactive retry — the request's outcome is returned/propagated as-is. -/
def makeSalesforceApiCall (rs : RedisState) (userId endpoint method : String)
    (body : Option String) (resp : HttpResult)
    (providerResp : Option TokenResponse) (now : Nat) : CallTrace :=
  match getTokenData rs userId now with
  | none => ⟨.notAuthenticated, [], 0, rs⟩
  | some tokenData =>
    if tokenData.expiresAt < now + 30000 then
      match refreshAccessToken rs userId providerResp now with
      | (none, rs') => ⟨.cannotRefresh, [], 1, rs'⟩
      | (some refreshed, rs') =>
        let req : OutRequest :=
          ⟨method, refreshed.instanceUrl ++ endpoint, refreshed.accessToken, body⟩
        ⟨liftHttp resp, [req], 1, rs'⟩
    else
      let req : OutRequest :=
        ⟨method, tokenData.instanceUrl ++ endpoint, tokenData.accessToken, body⟩
      ⟨liftHttp resp, [req], 0, rs⟩

end LiveV2

namespace AuthV2

/-- One entry of the state-keyed `sessionStore` of the canonical
`salesforceAuth` variant: `sessionStore[state] = {userId, timestamp}`. -/
structure PendingSession where
  userId : String
  timestamp : Nat
deriving DecidableEq

/-- The session store, keyed by the OAuth `state` string. -/
abbrev Sessions := String → Option PendingSession

/-- The in-memory token store of the `salesforceAuth` route file, keyed
by user id; `refreshToken` is optional (stored exactly as returned by
the exchange) and `expiresAt` is epoch ms already reduced by the
5-minute buffer. -/
structure TokenRecord where
  accessToken : String
  refreshToken : Option String
  instanceUrl : String
  expiresAt : Int
deriving DecidableEq

/-- The user-keyed token store of the `salesforceAuth` route file. -/
abbrev Tokens := String → Option TokenRecord

/-- `OAUTH_EXPIRY_BUFFER = 5 * 60 * 1000`. -/
def OAUTH_EXPIRY_BUFFER : Nat := 5 * 60 * 1000

/-- Outcome of the `GET /initiate` handler: 400 when `userId` is
missing, otherwise a 302 redirect to the provider authorize URL
(response_type=code, client id, redirect URI, scope, and the generated
`state`; only the state is tracked here, the rest are fixed
configuration). -/
inductive InitiateResult where
  | missingUserId
  | redirect (state : String)
deriving DecidableEq

/-- `GET /initiate` handler of the state-keyed variant: requires a
truthy `userId`, then stores `sessionStore[state] = {userId, now}` and
redirects carrying `state`. The cryptographically random state string
is an oracle argument. -/
def initiate (sessions : Sessions) (userId : Option String)
    (state : String) (now : Nat) : InitiateResult × Sessions :=
  match userId with
  | none => (.missingUserId, sessions)
  | some u =>
    if u = "" then (.missingUserId, sessions)
    else (.redirect state, setK sessions state (some ⟨u, now⟩))

/-- The exchange response body as destructured by the `/callback`
handler; every field optional, validated only for `access_token` and
`instance_url`. -/
structure ExchangeResponse where
  access_token : Option String
  refresh_token : Option String
  instance_url : Option String
  expires_in : Option Nat
deriving DecidableEq

/-- Outcome of the `GET /callback` handler: the 400 responses (OAuth
error passed back, missing code/state, unknown state), the 4xx/5xx of a
failed exchange, the 500 of a token response missing `access_token` or
`instance_url`, or the 200 success carrying the bound user id and the
instance URL. -/
inductive CallbackResult where
  | oauthError
  | missingParams
  | invalidState
  | exchangeFailed
  | invalidTokenResponse
  | success (userId : String) (instanceUrl : String)
deriving DecidableEq

/-- `GET /callback` handler of the state-keyed variant. Validates the
query parameters, looks the session up **by state**, deletes it
(single consumption — this happens before the exchange), then performs
the code exchange (`exchange` is the provider oracle; `none` = axios
rejection) and, on success, validates the body and stores the token
record under the session's bound user id with
`expiresAt = now + (expires_in or 3600) * 1000 - OAUTH_EXPIRY_BUFFER`.
Note: the handler checks only presence of the state, not its age. -/
def callback (sessions : Sessions) (tokens : Tokens)
    (code state oauthErr : Option String)
    (exchange : Option ExchangeResponse) (now : Nat) :
    CallbackResult × Sessions × Tokens :=
  if jsStrTruthy oauthErr then (.oauthError, sessions, tokens)
  else
    match code, state with
    | some c, some s =>
      if c = "" || s = "" then (.missingParams, sessions, tokens)
      else
        match sessions s with
        | none => (.invalidState, sessions, tokens)
        | some session =>
          let sessions' := setK sessions s none
          match exchange with
          | none => (.exchangeFailed, sessions', tokens)
          | some r =>
            if jsStrTruthy r.access_token && jsStrTruthy r.instance_url then
              let expiresAt : Int :=
                (now : Int) + ((r.expires_in.getD 3600) * 1000 : Nat)
                  - (OAUTH_EXPIRY_BUFFER : Int)
              let record : TokenRecord :=
                { accessToken := r.access_token.getD ""
                  refreshToken := r.refresh_token
                  instanceUrl := r.instance_url.getD ""
                  expiresAt := expiresAt }
              (.success session.userId (r.instance_url.getD ""),
                sessions', setK tokens session.userId (some record))
            else (.invalidTokenResponse, sessions', tokens)
    | _, _ => (.missingParams, sessions, tokens)

/-- Outcome of the `POST /disconnect` handler. -/
inductive DisconnectResult where
  | missingUserId
  | disconnected
deriving DecidableEq

/-- `POST /disconnect` handler of the state-keyed variant: requires a
truthy `userId`; deletes the user's token record and every pending
session whose bound `userId` equals it. -/
def disconnect (tokens : Tokens) (sessions : Sessions)
    (userId : Option String) : DisconnectResult × Tokens × Sessions :=
  match userId with
  | none => (.missingUserId, tokens, sessions)
  | some u =>
    if u = "" then (.missingUserId, tokens, sessions)
    else
      let tokens' := setK tokens u none
      let sessions' : Sessions := fun s =>
        match sessions s with
        | some e => if e.userId = u then none else some e
        | none => none
      (.disconnected, tokens', sessions')

/-- `cleanupExpiredSessions` of the state-keyed variant (run every five
minutes by `setInterval`): deletes every session older than ten
minutes. -/
def cleanupExpiredSessions (sessions : Sessions) (now : Nat) : Sessions :=
  fun s =>
    match sessions s with
    | some e => if now - e.timestamp > 10 * 60 * 1000 then none else some e
    | none => none

end AuthV2

/-!
## Theorems settling the claims
-/

/-- C1: for every call whose first outbound request returns 401, the
reactive wrapper (`makeSalesforceApiCall`, first `salesforceLive`
variant) performs exactly one refresh; when the refresh yields a
record, exactly one reissued request follows, and a second 401 fails
the call with that rethrown 401 (the condition the spec's taxonomy
names `AuthenticationExpired`); when the refresh fails, the call fails
with the refresh error and no request is reissued. In every execution
at most two outbound requests are attempted. -/
theorem c1_reactive_single_retry
    (store : String → Option LiveV1.TokenData)
    (userId endpoint method : String) (body : Option String)
    (resp1 resp2 : HttpResult) (providerResp : Option TokenResponse)
    (now : Nat) :
    (LiveV1.makeSalesforceApiCall store userId endpoint method body
        resp1 resp2 providerResp now).requests.length ≤ 2 ∧
    (∀ td, store userId = some td → resp1 = .httpErr 401 →
      (LiveV1.makeSalesforceApiCall store userId endpoint method body
          resp1 resp2 providerResp now).refreshCalls = 1 ∧
      (∀ rtd, (LiveV1.refreshAccessToken store userId providerResp now).1
            = some rtd →
        (LiveV1.makeSalesforceApiCall store userId endpoint method body
            resp1 resp2 providerResp now).requests.length = 2 ∧
        (resp2 = .httpErr 401 →
          (LiveV1.makeSalesforceApiCall store userId endpoint method body
              resp1 resp2 providerResp now).result = .httpError 401)) ∧
      ((LiveV1.refreshAccessToken store userId providerResp now).1 = none →
        (LiveV1.makeSalesforceApiCall store userId endpoint method body
            resp1 resp2 providerResp now).requests.length = 1 ∧
        (LiveV1.makeSalesforceApiCall store userId endpoint method body
            resp1 resp2 providerResp now).result = .refreshFailed)) := by
  unfold LiveV1.makeSalesforceApiCall
  cases hs : store userId with
  | none =>
    refine ⟨by simp, ?_⟩
    intro td htd
    simp [hs] at htd
  | some td =>
    cases resp1 with
    | ok b => exact ⟨by simp, by intro td' _ h401; cases h401⟩
    | netErr => exact ⟨by simp, by intro td' _ h401; cases h401⟩
    | httpErr s =>
      by_cases h401 : s = 401
      · subst h401
        simp only [if_pos rfl]
        cases hr : LiveV1.refreshAccessToken store userId providerResp now with
        | mk o store' =>
          cases o with
          | none =>
            refine ⟨by simp, ?_⟩
            intro td' _ _
            refine ⟨rfl, ?_, ?_⟩
            · intro rtd hrtd
              simp at hrtd
            · intro _
              exact ⟨rfl, rfl⟩
          | some rtd =>
            refine ⟨by simp, ?_⟩
            intro td' _ _
            refine ⟨rfl, ?_, ?_⟩
            · intro rtd' hrtd
              simp only [] at hrtd
              cases hrtd
              refine ⟨rfl, ?_⟩
              intro h2
              subst h2
              rfl
            · intro hnone
              simp at hnone
      · simp only [if_neg h401]
        refine ⟨by simp, ?_⟩
        intro td' _ heq
        cases heq
        exact absurd rfl h401

/-- Witness for C1 at a concrete input: a stored record, a first 401, a
successful refresh, and a second 401. -/
theorem c1_reactive_single_retry_witness :
    (setK (fun _ => none) "u1"
        (some (⟨"a0", "r0", "https://x", 0⟩ : LiveV1.TokenData))) "u1"
      = some ⟨"a0", "r0", "https://x", 0⟩ ∧
    (LiveV1.makeSalesforceApiCall
        (setK (fun _ => none) "u1" (some ⟨"a0", "r0", "https://x", 0⟩))
        "u1" "/services/oauth2/userinfo" "GET" none
        (.httpErr 401) (.httpErr 401) (some ⟨"a1", none, none, none⟩)
        5).refreshCalls = 1 ∧
    (LiveV1.makeSalesforceApiCall
        (setK (fun _ => none) "u1" (some ⟨"a0", "r0", "https://x", 0⟩))
        "u1" "/services/oauth2/userinfo" "GET" none
        (.httpErr 401) (.httpErr 401) (some ⟨"a1", none, none, none⟩)
        5).requests.length = 2 ∧
    (LiveV1.makeSalesforceApiCall
        (setK (fun _ => none) "u1" (some ⟨"a0", "r0", "https://x", 0⟩))
        "u1" "/services/oauth2/userinfo" "GET" none
        (.httpErr 401) (.httpErr 401) (some ⟨"a1", none, none, none⟩)
        5).result = .httpError 401 := by
  have h := c1_reactive_single_retry
    (setK (fun _ => none) "u1" (some ⟨"a0", "r0", "https://x", 0⟩))
    "u1" "/services/oauth2/userinfo" "GET" none
    (.httpErr 401) (.httpErr 401) (some ⟨"a1", none, none, none⟩) 5
  have h2 := h.2 ⟨"a0", "r0", "https://x", 0⟩ (by decide) rfl
  have h3 := h2.2.1 ⟨"a1", "r0", "https://x", 5⟩ (by decide)
  exact ⟨by decide, h2.1, h3.1, h3.2 rfl⟩

/-- C2: when the stored record expires within 30 s of now
(`expiresAt < now + 30000`), the proactive wrapper
(`makeSalesforceApiCall`, second `salesforceLive` variant) calls the
refresher before any outbound request and issues the single outbound
request with the refreshed record's credentials; when the refresh
fails, no outbound request is issued at all. -/
theorem c2_proactive_refresh
    (rs : TokenStoreService.RedisState) (userId endpoint method : String)
    (body : Option String) (resp : HttpResult)
    (providerResp : Option TokenResponse) (now : Nat)
    (td : TokenStoreService.TokenData)
    (hget : TokenStoreService.getTokenData rs userId now = some td)
    (hexp : td.expiresAt < now + 30000) :
    (LiveV2.makeSalesforceApiCall rs userId endpoint method body resp
        providerResp now).refreshCalls = 1 ∧
    (∀ rtd, (LiveV2.refreshAccessToken rs userId providerResp now).1
          = some rtd →
      (LiveV2.makeSalesforceApiCall rs userId endpoint method body resp
          providerResp now).requests
        = [⟨method, rtd.instanceUrl ++ endpoint, rtd.accessToken, body⟩]) ∧
    ((LiveV2.refreshAccessToken rs userId providerResp now).1 = none →
      (LiveV2.makeSalesforceApiCall rs userId endpoint method body resp
          providerResp now).requests = [] ∧
      (LiveV2.makeSalesforceApiCall rs userId endpoint method body resp
          providerResp now).result = .cannotRefresh) := by
  unfold LiveV2.makeSalesforceApiCall
  rw [hget]
  simp only [if_pos hexp]
  cases hr : LiveV2.refreshAccessToken rs userId providerResp now with
  | mk o rs' =>
    cases o with
    | none =>
      refine ⟨rfl, ?_, ?_⟩
      · intro rtd hrtd
        simp at hrtd
      · intro _
        exact ⟨rfl, rfl⟩
    | some rtd =>
      refine ⟨rfl, ?_, ?_⟩
      · intro rtd' hrtd
        simp only [] at hrtd
        cases hrtd
        rfl
      · intro hnone
        simp at hnone

/-- Witness for C2 at a concrete input: a record expiring in 10 s
(`expiresAt = 10000`, `now = 0`) and a successful refresh. -/
theorem c2_proactive_refresh_witness :
    TokenStoreService.getTokenData
        ⟨true, setK (fun _ => none) "kublish:token:u1"
            (some ⟨⟨"a0", "r0", "https://x", 10000⟩, 40000, 0⟩)⟩
        "u1" 0 = some ⟨"a0", "r0", "https://x", 10000⟩ ∧
    (10000 : Nat) < 0 + 30000 ∧
    (LiveV2.makeSalesforceApiCall
        ⟨true, setK (fun _ => none) "kublish:token:u1"
            (some ⟨⟨"a0", "r0", "https://x", 10000⟩, 40000, 0⟩)⟩
        "u1" "/services/oauth2/userinfo" "GET" none (.ok "body")
        (some ⟨"a1", none, none, some 3600⟩) 0).refreshCalls = 1 ∧
    (LiveV2.makeSalesforceApiCall
        ⟨true, setK (fun _ => none) "kublish:token:u1"
            (some ⟨⟨"a0", "r0", "https://x", 10000⟩, 40000, 0⟩)⟩
        "u1" "/services/oauth2/userinfo" "GET" none (.ok "body")
        (some ⟨"a1", none, none, some 3600⟩) 0).requests
      = [⟨"GET", "https://x/services/oauth2/userinfo", "a1", none⟩] := by
  have h := c2_proactive_refresh
    ⟨true, setK (fun _ => none) "kublish:token:u1"
        (some ⟨⟨"a0", "r0", "https://x", 10000⟩, 40000, 0⟩)⟩
    "u1" "/services/oauth2/userinfo" "GET" none (.ok "body")
    (some ⟨"a1", none, none, some 3600⟩) 0
    ⟨"a0", "r0", "https://x", 10000⟩ (by decide) (by decide)
  refine ⟨by decide, by decide, h.1, ?_⟩
  have h2 := h.2.1 ⟨"a1", "r0", "https://x", 3600000⟩ (by decide)
  exact h2

/-- Reading the key just written. -/
theorem setK_same {α : Type} (m : String → Option α) (k : String)
    (v : Option α) : setK m k v k = v := by
  simp [setK]

/-- Reading another key is unaffected. -/
theorem setK_other {α : Type} (m : String → Option α) (k k' : String)
    (v : Option α) (h : k' ≠ k) : setK m k v k' = m k' := by
  simp [setK, h]

/-- `GET /initiate` with a truthy `userId` stores the session under the
generated state and redirects. -/
theorem AuthV2.initiate_eq (sessions : AuthV2.Sessions) (u s : String)
    (now : Nat) (hu : u ≠ "") :
    AuthV2.initiate sessions (some u) s now
      = (.redirect s, setK sessions s (some ⟨u, now⟩)) := by
  unfold AuthV2.initiate
  simp [hu]

/-- `GET /callback` with truthy parameters, a known state, and a valid
exchange response: consumes the session and stores the token record
under the bound user id. -/
theorem AuthV2.callback_success_eq (sessions : AuthV2.Sessions)
    (tokens : AuthV2.Tokens) (c s : String) (e : AuthV2.PendingSession)
    (r : AuthV2.ExchangeResponse) (now : Nat)
    (hc : c ≠ "") (hs : s ≠ "") (hσ : sessions s = some e)
    (ha : jsStrTruthy r.access_token = true)
    (hi : jsStrTruthy r.instance_url = true) :
    AuthV2.callback sessions tokens (some c) (some s) none (some r) now
      = (.success e.userId (r.instance_url.getD ""),
         setK sessions s none,
         setK tokens e.userId (some
           { accessToken := r.access_token.getD ""
             refreshToken := r.refresh_token
             instanceUrl := r.instance_url.getD ""
             expiresAt := (now : Int) + ((r.expires_in.getD 3600) * 1000 : Nat)
               - (AuthV2.OAUTH_EXPIRY_BUFFER : Int) })) := by
  unfold AuthV2.callback
  simp only [jsStrTruthy, decide_not] at ha hi
  simp [jsStrTruthy, hc, hs, hσ, ha, hi]

/-- `GET /callback` with truthy parameters and an unknown (absent or
already consumed) state fails with the invalid-state error and changes
nothing. -/
theorem AuthV2.callback_absent_eq (sessions : AuthV2.Sessions)
    (tokens : AuthV2.Tokens) (c s : String)
    (ex : Option AuthV2.ExchangeResponse) (now : Nat)
    (hc : c ≠ "") (hs : s ≠ "") (hσ : sessions s = none) :
    AuthV2.callback sessions tokens (some c) (some s) none ex now
      = (.invalidState, sessions, tokens) := by
  unfold AuthV2.callback
  simp [jsStrTruthy, hc, hs, hσ]

/-- C3: two `initiate` calls for the same user with distinct generated
states (the random-state oracle values) create two session entries keyed
by those states, neither overwriting the other, and each is
independently completable: completing the first leaves the second
intact, and both callbacks succeed with the bound user id. -/
theorem c3_state_keyed_sessions
    (sessions : AuthV2.Sessions) (tokens : AuthV2.Tokens)
    (u s1 s2 cA cB : String) (now1 now2 m1 m2 : Nat)
    (r1 r2 : AuthV2.ExchangeResponse)
    (hu : u ≠ "") (hss : s1 ≠ s2) (hs1 : s1 ≠ "") (hs2 : s2 ≠ "")
    (hcA : cA ≠ "") (hcB : cB ≠ "")
    (ha1 : jsStrTruthy r1.access_token = true)
    (hi1 : jsStrTruthy r1.instance_url = true)
    (ha2 : jsStrTruthy r2.access_token = true)
    (hi2 : jsStrTruthy r2.instance_url = true) :
    (AuthV2.initiate ((AuthV2.initiate sessions (some u) s1 now1).2)
        (some u) s2 now2).2 s1 = some ⟨u, now1⟩ ∧
    (AuthV2.initiate ((AuthV2.initiate sessions (some u) s1 now1).2)
        (some u) s2 now2).2 s2 = some ⟨u, now2⟩ ∧
    (AuthV2.callback
        ((AuthV2.initiate ((AuthV2.initiate sessions (some u) s1 now1).2)
            (some u) s2 now2).2)
        tokens (some cA) (some s1) none (some r1) m1).1
      = .success u (r1.instance_url.getD "") ∧
    (AuthV2.callback
        ((AuthV2.initiate ((AuthV2.initiate sessions (some u) s1 now1).2)
            (some u) s2 now2).2)
        tokens (some cA) (some s1) none (some r1) m1).2.1 s2
      = some ⟨u, now2⟩ ∧
    (AuthV2.callback
        (AuthV2.callback
            ((AuthV2.initiate ((AuthV2.initiate sessions (some u) s1 now1).2)
                (some u) s2 now2).2)
            tokens (some cA) (some s1) none (some r1) m1).2.1
        (AuthV2.callback
            ((AuthV2.initiate ((AuthV2.initiate sessions (some u) s1 now1).2)
                (some u) s2 now2).2)
            tokens (some cA) (some s1) none (some r1) m1).2.2
        (some cB) (some s2) none (some r2) m2).1
      = .success u (r2.instance_url.getD "") := by
  rw [AuthV2.initiate_eq sessions u s1 now1 hu]
  rw [AuthV2.initiate_eq _ u s2 now2 hu]
  have hat1 : setK (setK sessions s1 (some ⟨u, now1⟩)) s2
      (some (⟨u, now2⟩ : AuthV2.PendingSession)) s1 = some ⟨u, now1⟩ := by
    rw [setK_other _ _ _ _ hss, setK_same]
  have hat2 : setK (setK sessions s1 (some ⟨u, now1⟩)) s2
      (some (⟨u, now2⟩ : AuthV2.PendingSession)) s2 = some ⟨u, now2⟩ :=
    setK_same _ _ _
  have hcb1 := AuthV2.callback_success_eq
    (setK (setK sessions s1 (some ⟨u, now1⟩)) s2 (some ⟨u, now2⟩))
    tokens cA s1 ⟨u, now1⟩ r1 m1 hcA hs1 hat1 ha1 hi1
  rw [hcb1]
  have hat2' : setK
      (setK (setK sessions s1 (some ⟨u, now1⟩)) s2 (some ⟨u, now2⟩))
      s1 none s2 = some (⟨u, now2⟩ : AuthV2.PendingSession) := by
    rw [setK_other _ _ _ _ (Ne.symm hss)]
    exact hat2
  have hcb2 := AuthV2.callback_success_eq
    (setK (setK (setK sessions s1 (some ⟨u, now1⟩)) s2 (some ⟨u, now2⟩))
      s1 none)
    (setK tokens u (some
      { accessToken := r1.access_token.getD ""
        refreshToken := r1.refresh_token
        instanceUrl := r1.instance_url.getD ""
        expiresAt := (m1 : Int) + ((r1.expires_in.getD 3600) * 1000 : Nat)
          - (AuthV2.OAUTH_EXPIRY_BUFFER : Int) }))
    cB s2 ⟨u, now2⟩ r2 m2 hcB hs2 hat2' ha2 hi2
  rw [hcb2]
  exact ⟨hat1, hat2, rfl, hat2', rfl⟩

/-- Witness for C3 at a concrete input: user `u1`, states `S1`/`S2`,
both flows completed in sequence. -/
theorem c3_state_keyed_sessions_witness :
    ("S1" : String) ≠ "S2" ∧
    (AuthV2.callback
        (AuthV2.callback
            ((AuthV2.initiate
                ((AuthV2.initiate (fun _ => none) (some "u1") "S1" 0).2)
                (some "u1") "S2" 1).2)
            (fun _ => none) (some "abc") (some "S1") none
            (some ⟨some "A1", some "R1", some "https://x", some 3600⟩) 2).2.1
        (AuthV2.callback
            ((AuthV2.initiate
                ((AuthV2.initiate (fun _ => none) (some "u1") "S1" 0).2)
                (some "u1") "S2" 1).2)
            (fun _ => none) (some "abc") (some "S1") none
            (some ⟨some "A1", some "R1", some "https://x", some 3600⟩) 2).2.2
        (some "def") (some "S2") none
        (some ⟨some "A2", some "R2", some "https://y", some 3600⟩) 3).1
      = .success "u1" "https://y" := by
  have h := c3_state_keyed_sessions (fun _ => none) (fun _ => none)
    "u1" "S1" "S2" "abc" "def" 0 1 2 3
    ⟨some "A1", some "R1", some "https://x", some 3600⟩
    ⟨some "A2", some "R2", some "https://y", some 3600⟩
    (by decide) (by decide) (by decide) (by decide) (by decide) (by decide)
    (by decide) (by decide) (by decide) (by decide)
  exact ⟨by decide, h.2.2.2.2⟩

/-- C4 counterexample: the claim says a `completeCallback` whose entry
is older than the 10-minute TTL fails with `InvalidState`; but the
`/callback` handler checks only presence of the state, so a
not-yet-swept entry created at t = 0 is accepted at t = 700000 ms
(11 min 40 s old) and the call succeeds. -/
theorem c4_ttl_counterexample :
    (700000 : Nat) - 0 > 10 * 60 * 1000 ∧
    (AuthV2.callback
        (setK (fun _ => none) "S1" (some ⟨"u1", 0⟩))
        (fun _ => none) (some "abc") (some "S1") none
        (some ⟨some "A1", some "R1", some "https://x", some 3600⟩)
        700000).1 = .success "u1" "https://x" := by decide

/-- C4 amended: for a state issued by `initiate`, the first valid
callback succeeds, returns the user id bound at initiate, and deletes
the entry; a second callback with the same state — and more generally
any callback whose state is absent (never issued or already consumed) —
fails with `InvalidState`; entries older than the 10-minute TTL are
removed by the periodic sweep (`cleanupExpiredSessions`), though the
callback handler itself does not check age. -/
theorem c4_single_consumption
    (σ0 : AuthV2.Sessions) (tokens : AuthV2.Tokens)
    (u s c : String) (r : AuthV2.ExchangeResponse) (t now : Nat)
    (hu : u ≠ "") (hs : s ≠ "") (hc : c ≠ "")
    (ha : jsStrTruthy r.access_token = true)
    (hi : jsStrTruthy r.instance_url = true) :
    (AuthV2.callback ((AuthV2.initiate σ0 (some u) s t).2) tokens
        (some c) (some s) none (some r) now).1
      = .success u (r.instance_url.getD "") ∧
    (AuthV2.callback ((AuthV2.initiate σ0 (some u) s t).2) tokens
        (some c) (some s) none (some r) now).2.1 s = none ∧
    (∀ (c2 : String) (ex2 : Option AuthV2.ExchangeResponse) (now2 : Nat),
      c2 ≠ "" →
      (AuthV2.callback
          (AuthV2.callback ((AuthV2.initiate σ0 (some u) s t).2) tokens
              (some c) (some s) none (some r) now).2.1
          (AuthV2.callback ((AuthV2.initiate σ0 (some u) s t).2) tokens
              (some c) (some s) none (some r) now).2.2
          (some c2) (some s) none ex2 now2).1 = .invalidState) ∧
    (∀ (σ : AuthV2.Sessions) (τ : AuthV2.Tokens) (c0 : String)
        (ex0 : Option AuthV2.ExchangeResponse) (n0 : Nat),
      c0 ≠ "" → σ s = none →
      (AuthV2.callback σ τ (some c0) (some s) none ex0 n0).1
        = .invalidState) ∧
    (∀ (σ : AuthV2.Sessions) (s' : String) (e' : AuthV2.PendingSession)
        (n' : Nat),
      σ s' = some e' → n' - e'.timestamp > 10 * 60 * 1000 →
      AuthV2.cleanupExpiredSessions σ n' s' = none) := by
  rw [AuthV2.initiate_eq σ0 u s t hu]
  have hat : setK σ0 s (some (⟨u, t⟩ : AuthV2.PendingSession)) s
      = some ⟨u, t⟩ := setK_same _ _ _
  have hcb := AuthV2.callback_success_eq
    (setK σ0 s (some ⟨u, t⟩)) tokens c s ⟨u, t⟩ r now hc hs hat ha hi
  rw [hcb]
  refine ⟨rfl, setK_same _ _ _, ?_, ?_, ?_⟩
  · intro c2 ex2 now2 hc2
    rw [AuthV2.callback_absent_eq _ _ _ _ _ _ hc2 hs (setK_same _ _ _)]
  · intro σ τ c0 ex0 n0 hc0 hσ
    rw [AuthV2.callback_absent_eq _ _ _ _ _ _ hc0 hs hσ]
  · intro σ s' e' n' hσ hold
    unfold AuthV2.cleanupExpiredSessions
    rw [hσ]
    simp [hold]

/-- Witness for C4 (amended) at a concrete input: initiate `u1` with
state `S1`, complete it once, observe the second attempt fail. -/
theorem c4_single_consumption_witness :
    (AuthV2.callback ((AuthV2.initiate (fun _ => none) (some "u1") "S1" 0).2)
        (fun _ => none) (some "abc") (some "S1") none
        (some ⟨some "A1", some "R1", some "https://x", some 3600⟩) 5).1
      = .success "u1" "https://x" ∧
    (AuthV2.callback
        (AuthV2.callback ((AuthV2.initiate (fun _ => none) (some "u1") "S1" 0).2)
            (fun _ => none) (some "abc") (some "S1") none
            (some ⟨some "A1", some "R1", some "https://x", some 3600⟩) 5).2.1
        (AuthV2.callback ((AuthV2.initiate (fun _ => none) (some "u1") "S1" 0).2)
            (fun _ => none) (some "abc") (some "S1") none
            (some ⟨some "A1", some "R1", some "https://x", some 3600⟩) 5).2.2
        (some "abc") (some "S1") none
        (some ⟨some "A1", some "R1", some "https://x", some 3600⟩) 6).1
      = .invalidState := by
  have h := c4_single_consumption (fun _ => none) (fun _ => none)
    "u1" "S1" "abc" ⟨some "A1", some "R1", some "https://x", some 3600⟩ 0 5
    (by decide) (by decide) (by decide) (by decide) (by decide)
  exact ⟨h.1, h.2.2.1 "abc"
    (some ⟨some "A1", some "R1", some "https://x", some 3600⟩) 6 (by decide)⟩

/-- C5 counterexample: the claim says every successful refresh stores
`expiresAt = now + expires_in*1000` minus the safety buffer; but
`refreshAccessToken` (Redis-backed variant) subtracts nothing: with
`expires_in = 7200` at `now = 0` it stores `expiresAt = 7200000`, not
`7200000 - 300000`. -/
theorem c5_refresh_buffer_counterexample :
    (LiveV2.refreshAccessToken
        ⟨true, setK (fun _ => none) "kublish:token:u1"
            (some ⟨⟨"a0", "r0", "https://x", 50000⟩, 50000, 0⟩)⟩
        "u1" (some ⟨"a1", none, none, some 7200⟩) 0).1
      = some ⟨"a1", "r0", "https://x", 7200000⟩ ∧
    (7200000 : Nat) ≠ 0 + 7200 * 1000 - 300000 := by decide

/-- C5 amended: a successful refresh whose response carries `expires_in`
stores `expiresAt = now + expires_in*1000` with no buffer subtracted;
only the authorization-code exchange (`/callback` handler) subtracts
the 5-minute buffer, storing
`expiresAt = now + expires_in*1000 - 300000`. -/
theorem c5_expiry_buffer
    (rs : TokenStoreService.RedisState) (u : String) (r : TokenResponse)
    (now e : Nat) (td td' : TokenStoreService.TokenData)
    (hget : TokenStoreService.getTokenData rs u now = some td)
    (he : r.expires_in = some e)
    (hsucc : (LiveV2.refreshAccessToken rs u (some r) now).1 = some td') :
    td'.expiresAt = now + e * 1000 ∧
    (∀ (sessions : AuthV2.Sessions) (tokens : AuthV2.Tokens)
        (c s : String) (entry : AuthV2.PendingSession)
        (rx : AuthV2.ExchangeResponse) (m ex : Nat)
        (tr : AuthV2.TokenRecord),
      c ≠ "" → s ≠ "" → sessions s = some entry →
      jsStrTruthy rx.access_token = true →
      jsStrTruthy rx.instance_url = true →
      rx.expires_in = some ex →
      (AuthV2.callback sessions tokens (some c) (some s) none (some rx)
          m).2.2 entry.userId = some tr →
      tr.expiresAt = (m : Int) + (ex * 1000 : Nat)
        - ((5 * 60 * 1000 : Nat) : Int)) := by
  constructor
  · unfold LiveV2.refreshAccessToken at hsucc
    rw [hget] at hsucc
    dsimp only at hsucc
    rw [he] at hsucc
    simp only [Option.getD_some] at hsucc
    by_cases hrt : td.refreshToken = ""
    · rw [if_pos hrt] at hsucc
      simp at hsucc
    · rw [if_neg hrt] at hsucc
      by_cases hok : (TokenStoreService.setTokenData rs u
          { accessToken := r.access_token
            refreshToken := jsOrStr r.refresh_token td.refreshToken
            instanceUrl := jsOrStr r.instance_url td.instanceUrl
            expiresAt := now + e * 1000 } now).2 = true
      · rw [if_pos hok] at hsucc
        simp only [Option.some.injEq] at hsucc
        rw [← hsucc]
      · rw [if_neg hok] at hsucc
        simp at hsucc
  · intro sessions tokens c s entry rx m ex tr hc hs hσ ha hi hex hstore
    rw [AuthV2.callback_success_eq sessions tokens c s entry rx m
      hc hs hσ ha hi] at hstore
    dsimp only at hstore
    rw [setK_same] at hstore
    cases hstore
    simp [AuthV2.OAUTH_EXPIRY_BUFFER, hex]

/-- Witness for C5 (amended) at concrete inputs: a refresh with
`expires_in = 7200` stores `expiresAt = 7200000` (no buffer); an
exchange with `expires_in = 3600` stores `expiresAt = 3300000`
(buffered). -/
theorem c5_expiry_buffer_witness :
    (⟨"a1", "r0", "https://x", 7200000⟩ :
        TokenStoreService.TokenData).expiresAt = 0 + 7200 * 1000 ∧
    (⟨"A1", some "R1", "https://x", 3300000⟩ :
        AuthV2.TokenRecord).expiresAt
      = ((0 : Nat) : Int) + ((3600 * 1000 : Nat) : Int)
        - ((5 * 60 * 1000 : Nat) : Int) := by
  have h := c5_expiry_buffer
    ⟨true, setK (fun _ => none) "kublish:token:u1"
        (some ⟨⟨"a0", "r0", "https://x", 50000⟩, 50000, 0⟩)⟩
    "u1" ⟨"a1", none, none, some 7200⟩ 0 7200
    ⟨"a0", "r0", "https://x", 50000⟩ ⟨"a1", "r0", "https://x", 7200000⟩
    (by decide) rfl (by decide)
  refine ⟨h.1, ?_⟩
  exact h.2 (setK (fun _ => none) "S1" (some ⟨"u1", 0⟩)) (fun _ => none)
    "abc" "S1" ⟨"u1", 0⟩ ⟨some "A1", some "R1", some "https://x", some 3600⟩
    0 3600 ⟨"A1", some "R1", "https://x", 3300000⟩
    (by decide) (by decide) (by decide) (by decide) (by decide) rfl
    (by decide)

/-- C6: a failed refresh (provider timeout or non-2xx, i.e. a rejected
token-endpoint call) leaves the token store exactly as it was, in both
`salesforceLive` variants, and a failed authorization-code exchange in
the `/callback` handler leaves the user-token store exactly as it was:
the failure paths perform no write, full or partial. -/
theorem c6_failure_no_write :
    (∀ (rs : TokenStoreService.RedisState) (u : String) (now : Nat),
      (LiveV2.refreshAccessToken rs u none now).2 = rs) ∧
    (∀ (store : String → Option LiveV1.TokenData) (u : String) (now : Nat),
      (LiveV1.refreshAccessToken store u none now).2 = store) ∧
    (∀ (sessions : AuthV2.Sessions) (tokens : AuthV2.Tokens)
        (code state err : Option String) (now : Nat),
      (AuthV2.callback sessions tokens code state err none now).2.2
        = tokens) := by
  refine ⟨?_, ?_, ?_⟩
  · intro rs u now
    unfold LiveV2.refreshAccessToken
    split
    · rfl
    · split
      · rfl
      · rfl
  · intro store u now
    unfold LiveV1.refreshAccessToken
    split
    · rfl
    · split
      · rfl
      · rfl
  · intro sessions tokens code state err now
    unfold AuthV2.callback
    split
    · rfl
    · split
      · split
        · rfl
        · split
          · rfl
          · rfl
      · rfl

/-- C7: a successful refresh whose provider response omits
`refresh_token` stores and returns a record whose `refreshToken` equals
the one stored before the refresh — in the Redis-backed variant and in
the in-memory variant alike. -/
theorem c7_preserve_refresh_token
    (rs : TokenStoreService.RedisState) (u : String) (r : TokenResponse)
    (now : Nat) (td td' : TokenStoreService.TokenData)
    (hget : TokenStoreService.getTokenData rs u now = some td)
    (hrt : r.refresh_token = none)
    (hsucc : (LiveV2.refreshAccessToken rs u (some r) now).1 = some td') :
    td'.refreshToken = td.refreshToken ∧
    (∀ (store : String → Option LiveV1.TokenData) (u2 : String)
        (r2 : TokenResponse) (now2 : Nat) (td2 td2' : LiveV1.TokenData),
      store u2 = some td2 → r2.refresh_token = none →
      (LiveV1.refreshAccessToken store u2 (some r2) now2).1 = some td2' →
      td2'.refreshToken = td2.refreshToken) := by
  constructor
  · unfold LiveV2.refreshAccessToken at hsucc
    rw [hget] at hsucc
    dsimp only at hsucc
    by_cases hrt0 : td.refreshToken = ""
    · rw [if_pos hrt0] at hsucc
      simp at hsucc
    · rw [if_neg hrt0] at hsucc
      by_cases hok : (TokenStoreService.setTokenData rs u
          { accessToken := r.access_token
            refreshToken := jsOrStr r.refresh_token td.refreshToken
            instanceUrl := jsOrStr r.instance_url td.instanceUrl
            expiresAt := now + (r.expires_in.getD 3600) * 1000 } now).2
          = true
      · rw [if_pos hok] at hsucc
        simp only [Option.some.injEq] at hsucc
        rw [← hsucc, hrt]
        rfl
      · rw [if_neg hok] at hsucc
        simp at hsucc
  · intro store u2 r2 now2 td2 td2' hget2 hrt2 hsucc2
    unfold LiveV1.refreshAccessToken at hsucc2
    rw [hget2] at hsucc2
    dsimp only at hsucc2
    by_cases hrt0 : td2.refreshToken = ""
    · rw [if_pos hrt0] at hsucc2
      simp at hsucc2
    · rw [if_neg hrt0] at hsucc2
      simp only [Option.some.injEq] at hsucc2
      rw [← hsucc2, hrt2]
      rfl

/-- Witness for C7 at a concrete input: a refresh response with no
`refresh_token` field; the stored `r0` survives in both variants. -/
theorem c7_preserve_refresh_token_witness :
    (⟨"a1", "r0", "https://x", 7200000⟩ :
        TokenStoreService.TokenData).refreshToken
      = (⟨"a0", "r0", "https://x", 50000⟩ :
        TokenStoreService.TokenData).refreshToken ∧
    (⟨"b1", "q0", "https://y", 9⟩ : LiveV1.TokenData).refreshToken
      = (⟨"b0", "q0", "https://y", 1⟩ : LiveV1.TokenData).refreshToken := by
  have h := c7_preserve_refresh_token
    ⟨true, setK (fun _ => none) "kublish:token:u1"
        (some ⟨⟨"a0", "r0", "https://x", 50000⟩, 50000, 0⟩)⟩
    "u1" ⟨"a1", none, none, some 7200⟩ 0
    ⟨"a0", "r0", "https://x", 50000⟩ ⟨"a1", "r0", "https://x", 7200000⟩
    (by decide) rfl (by decide)
  refine ⟨h.1, ?_⟩
  exact h.2 (setK (fun _ => none) "u2" (some ⟨"b0", "q0", "https://y", 1⟩))
    "u2" ⟨"b1", none, none, none⟩ 9
    ⟨"b0", "q0", "https://y", 1⟩ ⟨"b1", "q0", "https://y", 9⟩
    (by decide) rfl (by decide)

/-- C8 counterexample: the claim says `set` never silently drops the
write; but with Redis disconnected, `setTokenData` resolves without
writing (only a console warning), and the immediate `getTokenData`
returns `none` instead of the record — at a record with
`expiresAt = 100000 > now = 0` satisfying the claim's precondition. -/
theorem c8_silent_drop_counterexample :
    (⟨"a0", "r0", "https://x", 100000⟩ :
        TokenStoreService.TokenData).expiresAt > 0 ∧
    (TokenStoreService.setTokenData ⟨false, fun _ => none⟩ "u1"
        ⟨"a0", "r0", "https://x", 100000⟩ 0).2 = true ∧
    TokenStoreService.getTokenData
        (TokenStoreService.setTokenData ⟨false, fun _ => none⟩ "u1"
          ⟨"a0", "r0", "https://x", 100000⟩ 0).1
        "u1" 0 = none := by
  refine ⟨by decide, rfl, rfl⟩

/-- C8 amended: **when Redis is connected** and the record satisfies
the stated precondition `expiresAt > now`, `setTokenData` writes the
entry with TTL exactly `expiresAt - now`, and `getTokenData` returns
exactly that record until its expiry (`none` from `expiresAt` on);
when Redis is disconnected the write is silently dropped. -/
theorem c8_set_get_roundtrip
    (rs : TokenStoreService.RedisState) (u : String)
    (tok : TokenStoreService.TokenData) (now : Nat)
    (hconn : rs.connected = true) (hexp : now < tok.expiresAt) :
    (TokenStoreService.setTokenData rs u tok now).2 = true ∧
    (TokenStoreService.setTokenData rs u tok now).1.entries
        (TokenStoreService.tokenKey u)
      = some ⟨tok, (tok.expiresAt : Int) - (now : Int), now⟩ ∧
    (∀ now2 : Nat,
      TokenStoreService.getTokenData
          (TokenStoreService.setTokenData rs u tok now).1 u now2
        = if now2 < tok.expiresAt then some tok else none) := by
  have httl : ¬ ((tok.expiresAt : Int) - (now : Int) ≤ 0) := by omega
  have hset : TokenStoreService.setTokenData rs u tok now
      = ({ rs with entries := setK rs.entries (TokenStoreService.tokenKey u) (some ⟨tok, (tok.expiresAt : Int) - (now : Int), now⟩) }, true) := by
    unfold TokenStoreService.setTokenData
    simp [hconn, httl]
  rw [hset]
  refine ⟨rfl, setK_same _ _ _, ?_⟩
  intro now2
  unfold TokenStoreService.getTokenData
  dsimp only
  have hiff : ((now2 : Int) < (now : Int)
      + ((tok.expiresAt : Int) - (now : Int))) ↔ now2 < tok.expiresAt := by
    omega
  simp only [hconn, if_true, setK_same]
  by_cases h : now2 < tok.expiresAt
  · rw [if_pos (hiff.mpr h), if_pos h]
  · rw [if_neg (fun hh => h (hiff.mp hh)), if_neg h]

/-- Witness for C8 (amended) at a concrete input: connected Redis,
`expiresAt = 100000`, `now = 0`; the entry carries TTL 100000 and the
record is readable at `now2 = 99999` . -/
theorem c8_set_get_roundtrip_witness :
    (TokenStoreService.setTokenData ⟨true, fun _ => none⟩ "u1"
        ⟨"a0", "r0", "https://x", 100000⟩ 0).1.entries
        (TokenStoreService.tokenKey "u1")
      = some ⟨⟨"a0", "r0", "https://x", 100000⟩, (100000 : Int) - 0, 0⟩ ∧
    TokenStoreService.getTokenData
        (TokenStoreService.setTokenData ⟨true, fun _ => none⟩ "u1"
          ⟨"a0", "r0", "https://x", 100000⟩ 0).1 "u1" 99999
      = some ⟨"a0", "r0", "https://x", 100000⟩ := by
  have h := c8_set_get_roundtrip ⟨true, fun _ => none⟩ "u1"
    ⟨"a0", "r0", "https://x", 100000⟩ 0 rfl (by decide)
  refine ⟨?_, ?_⟩
  · have h2 := h.2.1
    exact_mod_cast h2
  · have h3 := h.2.2 99999
    rw [h3]
    decide

/-- C9: after clearing a user's record (`clearTokenData`, the
disconnect path of the Redis-backed store), a subsequent
`getTokenData` returns `none`, and a subsequent
`makeSalesforceApiCall` fails with the unauthenticated error while
issuing no outbound provider request and no refresh; likewise the
`/disconnect` handler removes the user's record from its token
store. -/
theorem c9_disconnect_unauthenticated
    (rs : TokenStoreService.RedisState) (u endpoint method : String)
    (body : Option String) (resp : HttpResult)
    (providerResp : Option TokenResponse) (now : Nat)
    (tokens : AuthV2.Tokens) (sessions : AuthV2.Sessions)
    (hu : u ≠ "") :
    TokenStoreService.getTokenData (TokenStoreService.clearTokenData rs u)
        u now = none ∧
    (LiveV2.makeSalesforceApiCall (TokenStoreService.clearTokenData rs u)
        u endpoint method body resp providerResp now).result
      = .notAuthenticated ∧
    (LiveV2.makeSalesforceApiCall (TokenStoreService.clearTokenData rs u)
        u endpoint method body resp providerResp now).requests = [] ∧
    (LiveV2.makeSalesforceApiCall (TokenStoreService.clearTokenData rs u)
        u endpoint method body resp providerResp now).refreshCalls = 0 ∧
    (AuthV2.disconnect tokens sessions (some u)).2.1 u = none := by
  have h1 : TokenStoreService.getTokenData
      (TokenStoreService.clearTokenData rs u) u now = none := by
    unfold TokenStoreService.clearTokenData TokenStoreService.getTokenData
    by_cases hconn : rs.connected = true
    · simp [hconn, setK_same]
    · simp [hconn]
  have h2 : LiveV2.makeSalesforceApiCall (TokenStoreService.clearTokenData rs u)
      u endpoint method body resp providerResp now
      = ⟨.notAuthenticated, [], 0, TokenStoreService.clearTokenData rs u⟩ := by
    unfold LiveV2.makeSalesforceApiCall
    rw [h1]
  refine ⟨h1, by rw [h2], by rw [h2], by rw [h2], ?_⟩
  unfold AuthV2.disconnect
  simp [hu, setK_same]

/-- Witness for C9 at a concrete input. -/
theorem c9_disconnect_unauthenticated_witness :
    TokenStoreService.getTokenData
        (TokenStoreService.clearTokenData
          ⟨true, setK (fun _ => none) "kublish:token:u1"
            (some ⟨⟨"a0", "r0", "https://x", 100000⟩, 100000, 0⟩)⟩ "u1")
        "u1" 5 = none ∧
    (LiveV2.makeSalesforceApiCall
        (TokenStoreService.clearTokenData
          ⟨true, setK (fun _ => none) "kublish:token:u1"
            (some ⟨⟨"a0", "r0", "https://x", 100000⟩, 100000, 0⟩)⟩ "u1")
        "u1" "/services/oauth2/userinfo" "GET" none (.ok "body") none
        5).requests = [] ∧
    (AuthV2.disconnect (setK (fun _ => none) "u1"
          (some ⟨"A1", some "R1", "https://x", 100⟩))
        (fun _ => none) (some "u1")).2.1 "u1" = none := by
  have h := c9_disconnect_unauthenticated
    ⟨true, setK (fun _ => none) "kublish:token:u1"
      (some ⟨⟨"a0", "r0", "https://x", 100000⟩, 100000, 0⟩)⟩
    "u1" "/services/oauth2/userinfo" "GET" none (.ok "body") none 5
    (setK (fun _ => none) "u1" (some ⟨"A1", some "R1", "https://x", 100⟩))
    (fun _ => none) (by decide)
  exact ⟨h.1, h.2.2.1, h.2.2.2.2⟩

/-- C10: the `/disconnect` handler deletes the user's token record and
every pending session bound to that user, so a callback with a state
issued before the disconnect fails with `InvalidState`; records of
other users and sessions bound to other users are unchanged. -/
theorem c10_disconnect_purges_sessions
    (tokens : AuthV2.Tokens) (sessions : AuthV2.Sessions) (u : String)
    (hu : u ≠ "") :
    (AuthV2.disconnect tokens sessions (some u)).2.1 u = none ∧
    (∀ v, v ≠ u →
      (AuthV2.disconnect tokens sessions (some u)).2.1 v = tokens v) ∧
    (∀ s e, sessions s = some e → e.userId = u →
      (AuthV2.disconnect tokens sessions (some u)).2.2 s = none) ∧
    (∀ s e, sessions s = some e → e.userId ≠ u →
      (AuthV2.disconnect tokens sessions (some u)).2.2 s = some e) ∧
    (∀ s, sessions s = none →
      (AuthV2.disconnect tokens sessions (some u)).2.2 s = none) ∧
    (∀ s e (c : String) (ex : Option AuthV2.ExchangeResponse) (n : Nat),
      sessions s = some e → e.userId = u → c ≠ "" → s ≠ "" →
      (AuthV2.callback (AuthV2.disconnect tokens sessions (some u)).2.2
          (AuthV2.disconnect tokens sessions (some u)).2.1
          (some c) (some s) none ex n).1 = .invalidState) := by
  have hd : AuthV2.disconnect tokens sessions (some u)
      = (.disconnected, setK tokens u none,
         fun s => match sessions s with
           | some e => if e.userId = u then none else some e
           | none => none) := by
    unfold AuthV2.disconnect
    simp [hu]
  rw [hd]
  have hsessNone : ∀ s e, sessions s = some e → e.userId = u →
      (fun s => match sessions s with
        | some e => if e.userId = u then none else some e
        | none => none : AuthV2.Sessions) s = none := by
    intro s e hσ he
    simp only [hσ]
    simp [he]
  refine ⟨setK_same _ _ _, ?_, ?_, ?_, ?_, ?_⟩
  · intro v hv
    exact setK_other _ _ _ _ hv
  · exact hsessNone
  · intro s e hσ hne
    simp only [hσ]
    simp [hne]
  · intro s hσ
    simp only [hσ]
  · intro s e c ex n hσ he hc hs
    exact congrArg Prod.fst (AuthV2.callback_absent_eq _ _ _ _ _ _ hc hs
      (hsessNone s e hσ he))

/-- Witness for C10 at a concrete input: user `u1` with one session
`S1`; user `u2`'s record and session `S2` survive; the stale `S1`
callback fails. -/
theorem c10_disconnect_purges_sessions_witness :
    (AuthV2.disconnect
        (setK (setK (fun _ => none) "u1" (some ⟨"A1", some "R1", "https://x", 100⟩)) "u2" (some ⟨"A2", some "R2", "https://y", 200⟩))
        (setK (setK (fun _ => none) "S1" (some ⟨"u1", 0⟩)) "S2" (some ⟨"u2", 1⟩))
        (some "u1")).2.1 "u2"
      = some ⟨"A2", some "R2", "https://y", 200⟩ ∧
    (AuthV2.disconnect
        (setK (setK (fun _ => none) "u1" (some ⟨"A1", some "R1", "https://x", 100⟩)) "u2" (some ⟨"A2", some "R2", "https://y", 200⟩))
        (setK (setK (fun _ => none) "S1" (some ⟨"u1", 0⟩)) "S2" (some ⟨"u2", 1⟩))
        (some "u1")).2.2 "S2" = some ⟨"u2", 1⟩ ∧
    (AuthV2.callback
        (AuthV2.disconnect
          (setK (setK (fun _ => none) "u1" (some ⟨"A1", some "R1", "https://x", 100⟩)) "u2" (some ⟨"A2", some "R2", "https://y", 200⟩))
          (setK (setK (fun _ => none) "S1" (some ⟨"u1", 0⟩)) "S2" (some ⟨"u2", 1⟩))
          (some "u1")).2.2
        (AuthV2.disconnect
          (setK (setK (fun _ => none) "u1" (some ⟨"A1", some "R1", "https://x", 100⟩)) "u2" (some ⟨"A2", some "R2", "https://y", 200⟩))
          (setK (setK (fun _ => none) "S1" (some ⟨"u1", 0⟩)) "S2" (some ⟨"u2", 1⟩))
          (some "u1")).2.1
        (some "abc") (some "S1") none
        (some ⟨some "A9", some "R9", some "https://z", some 3600⟩) 7).1
      = .invalidState := by
  have h := c10_disconnect_purges_sessions
    (setK (setK (fun _ => none) "u1" (some ⟨"A1", some "R1", "https://x", 100⟩)) "u2" (some ⟨"A2", some "R2", "https://y", 200⟩))
    (setK (setK (fun _ => none) "S1" (some ⟨"u1", 0⟩)) "S2" (some ⟨"u2", 1⟩))
    "u1" (by decide)
  refine ⟨?_, ?_, ?_⟩
  · rw [h.2.1 "u2" (by decide)]
    decide
  · exact h.2.2.2.1 "S2" ⟨"u2", 1⟩ (by decide) (by decide)
  · exact h.2.2.2.2.2 "S1" ⟨"u1", 0⟩ "abc"
      (some ⟨some "A9", some "R9", some "https://z", some 3600⟩) 7
      (by decide) rfl (by decide) (by decide)
